import Mathlib

/-!
Verification of the LSP extension command bridge
(`crates/project/src/lsp_store/lsp_ext_command.rs`).

The file embeds the three extension commands (ExpandMacro, OpenDocs,
SwitchSourceHeader) together with their four translation operations
(`to_lsp`, `response_from_lsp`, `to_proto`, `from_proto`,
`response_to_proto`, `response_from_proto`) as executable Lean
definitions, and proves the round-trip, error-handling and addressing
properties stated in the specification.

Collaborator code that lives outside the translated source file
(the buffer/anchor machinery of the `text` and `language` crates, the
proto message shapes of the `rpc` crate, and the URL helpers) is
modelled from the specification; each such definition carries a doc
comment saying so.
-/

/-- A UTF-16 (line, column) point, as in `text::PointUtf16`:
`row` and `column` are 0-based counts of lines and UTF-16 code units. -/
structure PointUtf16 where
  row : Nat
  column : Nat
deriving DecidableEq, Repr

/-- A wire-protocol position, as in `lsp::Position`: 0-based line and
0-based UTF-16 character offset. -/
structure LspPosition where
  line : Nat
  character : Nat
deriving DecidableEq, Repr

/-- Modelled from the spec: `point_to_lsp` from the `language` crate.
"point_to_wire(point) -> WirePosition and its inverse are pure, total
functions (UTF-16 point to wire position have a 1:1 mapping; no error
case)". -/
def point_to_lsp (p : PointUtf16) : LspPosition :=
  ⟨p.row, p.column⟩

/-- Anchor bias, as in `text::Bias`: whether the anchor sticks to the
left or to the right of concurrent insertions at its location. -/
inductive Bias where
  | left
  | right
deriving DecidableEq, Repr

/-- Modelled from the spec: the `text::Anchor` type (not under `src/`).
"Anchor: an opaque, revision-independent handle into a buffer's edit
history". We model it as a UTF-16 code-unit offset into the buffer's
current text plus a bias, which is opaque to all code in the translated
file and supports the same-revision resolution the claims exercise. -/
structure Anchor where
  offset : Nat
  bias : Bias
deriving DecidableEq, Repr

/-- Modelled from the spec: a text buffer as seen by this core.
`remoteId` is the process-wide-unique buffer identifier used for peer
routing; `lineLens` lists the UTF-16 length of each line of the current
revision ("valid only against a known buffer revision"). -/
structure Buffer where
  remoteId : Nat
  lineLens : List Nat
deriving DecidableEq, Repr

/-- UTF-16 code-unit offset of a point in a buffer described by its
per-line lengths; each line break counts as one code unit. -/
def pointToOffset : List Nat → PointUtf16 → Nat
  | [], _ => 0
  | l :: _, ⟨0, c⟩ => min c l
  | l :: ls, ⟨r + 1, c⟩ => l + 1 + pointToOffset ls ⟨r, c⟩

/-- Inverse of `pointToOffset`: recover the (line, column) point of a
UTF-16 code-unit offset, clamping past the end of the text. -/
def offsetToPoint : List Nat → Nat → PointUtf16
  | [], _ => ⟨0, 0⟩
  | l :: ls, o =>
    if o ≤ l then ⟨0, o⟩
    else
      let p := offsetToPoint ls (o - l - 1)
      ⟨p.row + 1, p.column⟩

/-- A point lies within the buffer's current bounds: its row is an
existing line and its column does not exceed that line's UTF-16 length. -/
def validPoint (buf : Buffer) (p : PointUtf16) : Bool :=
  match buf.lineLens.get? p.row with
  | some l => p.column ≤ l
  | none => false

/-- Modelled from the spec: `Buffer::anchor_before` from the `text`
crate. "anchor_before(buffer, point) -> Anchor ... anchoring happens
strictly before a position can be invalidated by a concurrent edit". -/
def Buffer.anchor_before (buf : Buffer) (p : PointUtf16) : Anchor :=
  ⟨pointToOffset buf.lineLens p, Bias.left⟩

/-- Modelled from the spec: `Anchor::to_point_utf16` (anchor
resolution). "anchor.resolve(buffer) -> point ... resolution happens
strictly after receipt, against whatever buffer revision is current at
the receiver". -/
def Anchor.to_point_utf16 (a : Anchor) (buf : Buffer) : PointUtf16 :=
  offsetToPoint buf.lineLens a.offset

/-- Modelled from the spec: the serialized anchor carried in peer
messages (`proto::Anchor` of the `rpc` crate); the bias travels as a
raw wire number, which is how a garbage value can arrive. -/
structure ProtoAnchor where
  offset : Nat
  biasCode : Nat
deriving DecidableEq, Repr

/-- Modelled from the spec: `language::proto::serialize_anchor`
(not under `src/`): encode an anchor structurally for a peer message. -/
def serialize_anchor (a : Anchor) : ProtoAnchor :=
  ⟨a.offset, match a.bias with | Bias.left => 0 | Bias.right => 1⟩

/-- Modelled from the spec: `language::proto::deserialize_anchor`
(not under `src/`): decode a wire anchor, failing (returning `none`)
when the encoding is corrupt — here, when the bias code is not a known
value. "fails ... if the anchor fails to decode". -/
def deserialize_anchor (pa : ProtoAnchor) : Option Anchor :=
  match pa.biasCode with
  | 0 => some ⟨pa.offset, Bias.left⟩
  | 1 => some ⟨pa.offset, Bias.right⟩
  | _ => none

/-- A file URL, as in `lsp::Url` restricted to what this core uses. -/
structure Url where
  path : String
deriving DecidableEq, Repr

def slashChar : Char := '/'

/-- Modelled from the spec: `lsp::Url::from_file_path` — fails when
"the path cannot be expressed as a URI"; concretely, a relative path
has no file-URI form, an absolute one does. -/
def Url.from_file_path (path : String) : Option Url :=
  if path.front = slashChar then some ⟨path⟩ else none

/-- An LSP text document identifier (`lsp::TextDocumentIdentifier`). -/
structure TextDocumentIdentifier where
  uri : Url
deriving DecidableEq, Repr

/-- Modelled from the spec: `make_text_document_identifier` from
`lsp_store.rs` (not under `src/`). For outbound-to-server translation
the spec expects "none expected (path/position always constructible)"
and "file path is taken as given", so the identifier wraps the given
path. -/
def make_text_document_identifier (path : String) :
    Except String TextDocumentIdentifier :=
  Except.ok ⟨⟨path⟩⟩

/-- Recoverable errors of the command contract. -/
inductive CmdError where
  | invalidPosition
  | invalidPath
deriving DecidableEq, Repr

/-- Outcome of an operation that, in the source, may also abort the
process (a Rust `unwrap`), distinguished from recoverable errors. -/
inductive Outcome (α : Type) where
  | ok (a : α)
  | err (e : CmdError)
  | aborted
deriving DecidableEq, Repr

/-- Whether an `Except` computation succeeded. -/
def exceptIsOk {ε α : Type} : Except ε α → Bool
  | Except.ok _ => true
  | Except.error _ => false

/-- Method name of the macro-expansion language-server request
(`LspExpandMacro::METHOD`). -/
def lspExpandMacroMethod : String := "rust-analyzer/expandMacro"

/-- Method name of the documentation-lookup language-server request
(`LspOpenDocs::METHOD`). -/
def lspOpenDocsMethod : String := "experimental/externalDocs"

/-- Method name of the source/header-switch language-server request
(`LspSwitchSourceHeader::METHOD`). -/
def lspSwitchSourceHeaderMethod : String := "textDocument/switchSourceHeader"

/-- `ExpandMacroParams`: the request body of the macro-expansion
language-server call. -/
structure ExpandMacroParams where
  text_document : TextDocumentIdentifier
  position : LspPosition
deriving DecidableEq, Repr

/-- `ExpandedMacro`: the macro-expansion response. -/
structure ExpandedMacro where
  name : String
  expansion : String
deriving DecidableEq, Repr

/-- `Default` value of `ExpandedMacro` (derived `Default` in the
source: both strings empty). -/
def ExpandedMacro.default : ExpandedMacro := ⟨"", ""⟩

/-- `ExpandedMacro::is_empty`. -/
def ExpandedMacro.is_empty (m : ExpandedMacro) : Bool :=
  m.name.isEmpty && m.expansion.isEmpty

/-- The macro-expansion command (`ExpandMacro`). -/
structure ExpandMacro where
  position : PointUtf16
deriving DecidableEq, Repr

/-- Modelled from the spec: the peer request message
`proto::LspExtExpandMacro` of the `rpc` crate (not under `src/`),
with exactly the fields the translated code reads and writes:
"a numeric project identifier and a numeric buffer identifier for
routing, plus an anchor-encoded position". -/
structure LspExtExpandMacroMsg where
  project_id : Nat
  buffer_id : Nat
  position : Option ProtoAnchor
deriving DecidableEq, Repr

/-- Modelled from the spec: the peer response message
`proto::LspExtExpandMacroResponse`: "Response messages carry the
command's result fields structurally". -/
structure LspExtExpandMacroResponse where
  name : String
  expansion : String
deriving DecidableEq, Repr

/-- `ExpandMacro::to_lsp`: build the language-server request from the
command's UTF-16 position and the buffer's file path. -/
def ExpandMacro.to_lsp (self : ExpandMacro) (path : String) (_buffer : Buffer) :
    Outcome ExpandMacroParams :=
  match make_text_document_identifier path with
  | Except.ok doc => Outcome.ok ⟨doc, point_to_lsp self.position⟩
  | Except.error _ => Outcome.err CmdError.invalidPath

/-- `ExpandMacro::response_from_lsp`: an absent server response
collapses to the default (empty) `ExpandedMacro`, never an error. -/
def ExpandMacro.response_from_lsp (_self : ExpandMacro)
    (message : Option ExpandedMacro) : Except CmdError ExpandedMacro :=
  Except.ok ((message.map fun m => ⟨m.name, m.expansion⟩).getD ExpandedMacro.default)

/-- `ExpandMacro::to_proto`: anchor the position before the current
revision and send it serialized, with project and buffer addressing. -/
def ExpandMacro.to_proto (self : ExpandMacro) (project_id : Nat) (buffer : Buffer) :
    LspExtExpandMacroMsg :=
  ⟨project_id, buffer.remoteId,
    some (serialize_anchor (buffer.anchor_before self.position))⟩

/-- `ExpandMacro::from_proto`: decode the transmitted anchor and
resolve it against the receiver's buffer; a missing or undecodable
position is the "invalid position" error. -/
def ExpandMacro.from_proto (message : LspExtExpandMacroMsg) (buffer : Buffer) :
    Except CmdError ExpandMacro :=
  match message.position.bind deserialize_anchor with
  | some position => Except.ok ⟨position.to_point_utf16 buffer⟩
  | none => Except.error CmdError.invalidPosition

/-- `ExpandMacro::response_to_proto`: pass the result fields through
structurally. -/
def ExpandMacro.response_to_proto (response : ExpandedMacro) :
    LspExtExpandMacroResponse :=
  ⟨response.name, response.expansion⟩

/-- `ExpandMacro::response_from_proto`: rebuild the typed response
from the peer message; never fails. -/
def ExpandMacro.response_from_proto (_self : ExpandMacro)
    (message : LspExtExpandMacroResponse) : Except CmdError ExpandedMacro :=
  Except.ok ⟨message.name, message.expansion⟩

/-- `OpenDocsParams`: the request body of the documentation-lookup
language-server call. -/
structure OpenDocsParams where
  text_document : TextDocumentIdentifier
  position : LspPosition
deriving DecidableEq, Repr

/-- `DocsUrls`: the documentation-lookup response: an optional web URL
and an optional local-file URL. -/
structure DocsUrls where
  web : Option String
  «local» : Option String
deriving DecidableEq, Repr

/-- `Default` value of `DocsUrls` (derived `Default` in the source:
both fields `None`). -/
def DocsUrls.default : DocsUrls := ⟨none, none⟩

/-- `DocsUrls::is_empty`. -/
def DocsUrls.is_empty (d : DocsUrls) : Bool :=
  d.web.isNone && d.«local».isNone

/-- The documentation-lookup command (`OpenDocs`). -/
structure OpenDocs where
  position : PointUtf16
deriving DecidableEq, Repr

/-- Modelled from the spec: the peer request message
`proto::LspExtOpenDocs`, same addressing-plus-anchor shape as the
macro-expansion request message. -/
structure LspExtOpenDocsMsg where
  project_id : Nat
  buffer_id : Nat
  position : Option ProtoAnchor
deriving DecidableEq, Repr

/-- Modelled from the spec: the peer response message
`proto::LspExtOpenDocsResponse`, carrying the two optional URLs
structurally. -/
structure LspExtOpenDocsResponse where
  web : Option String
  «local» : Option String
deriving DecidableEq, Repr

/-- `OpenDocs::to_lsp`: the source builds the document identifier with
`lsp::Url::from_file_path(path).unwrap()`, so a path with no URI form
aborts the process rather than returning a recoverable error. -/
def OpenDocs.to_lsp (self : OpenDocs) (path : String) (_buffer : Buffer) :
    Outcome OpenDocsParams :=
  match Url.from_file_path path with
  | some uri => Outcome.ok ⟨⟨uri⟩, point_to_lsp self.position⟩
  | none => Outcome.aborted

/-- `OpenDocs::response_from_lsp`: an absent server response collapses
to the default (empty) `DocsUrls`, never an error. -/
def OpenDocs.response_from_lsp (_self : OpenDocs)
    (message : Option DocsUrls) : Except CmdError DocsUrls :=
  Except.ok ((message.map fun m => ⟨m.web, m.«local»⟩).getD DocsUrls.default)

/-- `OpenDocs::to_proto`: anchor the position before the current
revision and send it serialized, with project and buffer addressing. -/
def OpenDocs.to_proto (self : OpenDocs) (project_id : Nat) (buffer : Buffer) :
    LspExtOpenDocsMsg :=
  ⟨project_id, buffer.remoteId,
    some (serialize_anchor (buffer.anchor_before self.position))⟩

/-- `OpenDocs::from_proto`: decode the transmitted anchor and resolve
it against the receiver's buffer; a missing or undecodable position is
the "invalid position" error. -/
def OpenDocs.from_proto (message : LspExtOpenDocsMsg) (buffer : Buffer) :
    Except CmdError OpenDocs :=
  match message.position.bind deserialize_anchor with
  | some position => Except.ok ⟨position.to_point_utf16 buffer⟩
  | none => Except.error CmdError.invalidPosition

/-- `OpenDocs::response_to_proto`: pass the result fields through
structurally. -/
def OpenDocs.response_to_proto (response : DocsUrls) : LspExtOpenDocsResponse :=
  ⟨response.web, response.«local»⟩

/-- `OpenDocs::response_from_proto`: rebuild the typed response from
the peer message; never fails. -/
def OpenDocs.response_from_proto (_self : OpenDocs)
    (message : LspExtOpenDocsResponse) : Except CmdError DocsUrls :=
  Except.ok ⟨message.web, message.«local»⟩

/-- `SwitchSourceHeaderParams`: the request body of the source/header
switch language-server call, a wrapped document identifier. -/
structure SwitchSourceHeaderParams where
  doc : TextDocumentIdentifier
deriving DecidableEq, Repr

/-- `SwitchSourceHeaderResult`: the response, a wrapped counterpart
file name. -/
structure SwitchSourceHeaderResult where
  target : String
deriving DecidableEq, Repr

/-- `Default` value of `SwitchSourceHeaderResult` (derived `Default`
in the source: the empty string). -/
def SwitchSourceHeaderResult.default : SwitchSourceHeaderResult := ⟨""⟩

/-- The source/header-switch command (`SwitchSourceHeader`): a
zero-parameter command addressing only a file. -/
structure SwitchSourceHeader where
deriving DecidableEq, Repr

/-- Modelled from the spec: the peer request message
`proto::LspExtSwitchSourceHeader`, which "carries only the buffer
identifier, no position field" besides the project identifier. -/
structure LspExtSwitchSourceHeaderMsg where
  project_id : Nat
  buffer_id : Nat
deriving DecidableEq, Repr

/-- Modelled from the spec: the peer response message
`proto::LspExtSwitchSourceHeaderResponse`, carrying the counterpart
file name structurally. -/
structure LspExtSwitchSourceHeaderResponse where
  target_file : String
deriving DecidableEq, Repr

/-- `SwitchSourceHeader::to_lsp`: build the language-server request
from the file path alone. -/
def SwitchSourceHeader.to_lsp (_self : SwitchSourceHeader) (path : String)
    (_buffer : Buffer) : Outcome SwitchSourceHeaderParams :=
  match make_text_document_identifier path with
  | Except.ok doc => Outcome.ok ⟨doc⟩
  | Except.error _ => Outcome.err CmdError.invalidPath

/-- `SwitchSourceHeader::response_from_lsp`: an absent server response
collapses to the default (empty) result, never an error. -/
def SwitchSourceHeader.response_from_lsp (_self : SwitchSourceHeader)
    (message : Option SwitchSourceHeaderResult) :
    Except CmdError SwitchSourceHeaderResult :=
  Except.ok ((message.map fun m => ⟨m.target⟩).getD SwitchSourceHeaderResult.default)

/-- `SwitchSourceHeader::to_proto`: the peer request carries only the
project identifier and the buffer's remote identifier. -/
def SwitchSourceHeader.to_proto (_self : SwitchSourceHeader) (project_id : Nat)
    (buffer : Buffer) : LspExtSwitchSourceHeaderMsg :=
  ⟨project_id, buffer.remoteId⟩

/-- `SwitchSourceHeader::from_proto`: reconstruction of the
zero-parameter command ignores the message entirely and never fails. -/
def SwitchSourceHeader.from_proto (_message : LspExtSwitchSourceHeaderMsg)
    (_buffer : Buffer) : Except CmdError SwitchSourceHeader :=
  Except.ok ⟨⟩

/-- `SwitchSourceHeader::response_to_proto`: pass the counterpart file
name through structurally. -/
def SwitchSourceHeader.response_to_proto (response : SwitchSourceHeaderResult) :
    LspExtSwitchSourceHeaderResponse :=
  ⟨response.target⟩

/-- `SwitchSourceHeader::response_from_proto`: rebuild the typed
response from the peer message; never fails. -/
def SwitchSourceHeader.response_from_proto (_self : SwitchSourceHeader)
    (message : LspExtSwitchSourceHeaderResponse) :
    Except CmdError SwitchSourceHeaderResult :=
  Except.ok ⟨message.target_file⟩

/-- `ExpandMacro::buffer_id_from_proto` /
`OpenDocs::buffer_id_from_proto` / `SwitchSourceHeader`'s: extract the
routing buffer identifier from a peer message; `BufferId::new` rejects
the zero identifier (the identifier type is a positive integer). -/
def bufferIdFromWire (buffer_id : Nat) : Except CmdError Nat :=
  if buffer_id = 0 then Except.error CmdError.invalidPosition else Except.ok buffer_id

/-- Resolving the offset of an in-bounds point recovers that point:
the same-revision anchor round trip of the position translator. -/
theorem offsetToPoint_pointToOffset (lines : List Nat) (r c : Nat)
    (h : (match lines.get? r with
          | some l => c ≤ l
          | none => False)) :
    offsetToPoint lines (pointToOffset lines ⟨r, c⟩) = ⟨r, c⟩ := by
  induction lines generalizing r with
  | nil => simp [List.get?] at h
  | cons l ls ih =>
    cases r with
    | zero =>
      simp only [List.get?, Option.some.injEq] at h
      simp [pointToOffset, offsetToPoint, Nat.min_eq_left h, h]
    | succ r' =>
      simp only [List.get?] at h
      have hrec := ih r' h
      simp only [pointToOffset, offsetToPoint]
      rw [if_neg (by omega)]
      have harith : l + 1 + pointToOffset ls ⟨r', c⟩ - l - 1 = pointToOffset ls ⟨r', c⟩ := by
        omega
      rw [harith, hrec]

/-- Unpacking the boolean bounds check into its propositional form. -/
theorem validPoint_spec (buf : Buffer) (p : PointUtf16)
    (h : validPoint buf p = true) :
    (match buf.lineLens.get? p.row with
     | some l => p.column ≤ l
     | none => False) := by
  unfold validPoint at h
  cases hg : buf.lineLens.get? p.row with
  | some l =>
    rw [hg] at h
    simpa using h
  | none =>
    rw [hg] at h
    simp at h

/-- Same-revision anchor round trip: resolving the anchor created
before an in-bounds point recovers that point. -/
theorem anchor_before_resolve (buf : Buffer) (p : PointUtf16)
    (h : validPoint buf p = true) :
    (buf.anchor_before p).to_point_utf16 buf = p := by
  cases p with
  | mk r c =>
    exact offsetToPoint_pointToOffset buf.lineLens r c (validPoint_spec buf ⟨r, c⟩ h)

/-- Claim C1: for an ExpandMacro or OpenDocs command at an in-bounds
UTF-16 position, translating outbound-to-peer (`to_proto`, anchoring
before the current revision) and then inbound-from-peer (`from_proto`)
against the same buffer at the same revision reconstructs a command
whose UTF-16 position equals the original command's position. -/
theorem expandMacro_openDocs_peer_position_roundtrip
    (p : PointUtf16) (project_id : Nat) (buf : Buffer)
    (h : validPoint buf p = true) :
    (∃ c, ExpandMacro.from_proto (ExpandMacro.to_proto ⟨p⟩ project_id buf) buf =
        Except.ok c ∧ c.position = p) ∧
    (∃ c, OpenDocs.from_proto (OpenDocs.to_proto ⟨p⟩ project_id buf) buf =
        Except.ok c ∧ c.position = p) := by
  have hres := anchor_before_resolve buf p h
  constructor
  · refine ⟨⟨(buf.anchor_before p).to_point_utf16 buf⟩, ?_, hres⟩
    rfl
  · refine ⟨⟨(buf.anchor_before p).to_point_utf16 buf⟩, ?_, hres⟩
    rfl

/-- Claim C1 witness: the round trip at the concrete point (0, 3) of a
single-line buffer of UTF-16 length 12 with remote id 1, project 7. -/
theorem expandMacro_openDocs_peer_position_roundtrip_witness :
    validPoint ⟨1, [12]⟩ ⟨0, 3⟩ = true ∧
    ((∃ c, ExpandMacro.from_proto
          (ExpandMacro.to_proto ⟨⟨0, 3⟩⟩ 7 ⟨1, [12]⟩) ⟨1, [12]⟩ =
        Except.ok c ∧ c.position = ⟨0, 3⟩) ∧
     (∃ c, OpenDocs.from_proto
          (OpenDocs.to_proto ⟨⟨0, 3⟩⟩ 7 ⟨1, [12]⟩) ⟨1, [12]⟩ =
        Except.ok c ∧ c.position = ⟨0, 3⟩)) :=
  ⟨by decide,
   expandMacro_openDocs_peer_position_roundtrip ⟨0, 3⟩ 7 ⟨1, [12]⟩ (by decide)⟩

/-- Claim C2: for each of the three commands, `response_from_lsp`
applied to an absent (`none`) server response returns `ok` with the
response type's default empty value — never an error — and, where
`is_empty` is defined, the resulting value reports empty. -/
theorem empty_response_normalization
    (em : ExpandMacro) (od : OpenDocs) (sh : SwitchSourceHeader) :
    (em.response_from_lsp none = Except.ok ExpandedMacro.default ∧
      ExpandedMacro.default.is_empty = true) ∧
    (od.response_from_lsp none = Except.ok DocsUrls.default ∧
      DocsUrls.default.is_empty = true) ∧
    sh.response_from_lsp none = Except.ok SwitchSourceHeaderResult.default :=
  ⟨⟨rfl, rfl⟩, ⟨rfl, rfl⟩, rfl⟩

/-- Claim C3: for ExpandMacro and OpenDocs, `from_proto` fails with
the invalid-position error exactly when the peer message's position
field is absent or does not deserialize as an anchor, and succeeds
exactly when the position field is present and deserializes. -/
theorem from_proto_fails_iff_bad_position
    (msgE : LspExtExpandMacroMsg) (msgO : LspExtOpenDocsMsg) (buf : Buffer) :
    ((ExpandMacro.from_proto msgE buf = Except.error CmdError.invalidPosition ↔
        msgE.position = none ∨
          ∃ pa, msgE.position = some pa ∧ deserialize_anchor pa = none) ∧
      (exceptIsOk (ExpandMacro.from_proto msgE buf) = true ↔
        ∃ pa a, msgE.position = some pa ∧ deserialize_anchor pa = some a)) ∧
    ((OpenDocs.from_proto msgO buf = Except.error CmdError.invalidPosition ↔
        msgO.position = none ∨
          ∃ pa, msgO.position = some pa ∧ deserialize_anchor pa = none) ∧
      (exceptIsOk (OpenDocs.from_proto msgO buf) = true ↔
        ∃ pa a, msgO.position = some pa ∧ deserialize_anchor pa = some a)) := by
  constructor
  · cases hpos : msgE.position with
    | none =>
      simp [ExpandMacro.from_proto, hpos, exceptIsOk]
    | some pa =>
      cases hdes : deserialize_anchor pa with
      | none => simp [ExpandMacro.from_proto, hpos, hdes, exceptIsOk]
      | some a => simp [ExpandMacro.from_proto, hpos, hdes, exceptIsOk]
  · cases hpos : msgO.position with
    | none =>
      simp [OpenDocs.from_proto, hpos, exceptIsOk]
    | some pa =>
      cases hdes : deserialize_anchor pa with
      | none => simp [OpenDocs.from_proto, hpos, hdes, exceptIsOk]
      | some a => simp [OpenDocs.from_proto, hpos, hdes, exceptIsOk]

/-- A relative path, which has no file-URI form. -/
def relativePathExample : String := "relative.rs"

/-- Claim C4 (failing input): the source builds the OpenDocs document
identifier with an unconditional `unwrap` of `Url::from_file_path`, so
a path that cannot be expressed as a URI aborts the process instead of
producing the recoverable invalid-path error the spec requires; in
particular no `Outcome.err` value is ever produced on that path. -/
theorem openDocs_to_lsp_aborts_on_relative_path :
    OpenDocs.to_lsp ⟨⟨0, 0⟩⟩ relativePathExample ⟨1, [10]⟩ = Outcome.aborted ∧
    ∀ e, OpenDocs.to_lsp ⟨⟨0, 0⟩⟩ relativePathExample ⟨1, [10]⟩ ≠ Outcome.err e := by
  refine ⟨by decide, ?_⟩
  intro e
  cases e <;> decide

/-- The file path of the end-to-end scenario. -/
def mainRsPath : String := "main.rs"

/-- The macro name of the end-to-end scenario. -/
def mainName : String := "main"

/-- The expanded text of the end-to-end scenario. -/
def mainExpansion : String := "fn main() \x7b \x7d"

/-- Claim C5: for the ExpandMacro command at UTF-16 point (0, 3) in a
buffer whose file is "main.rs", `to_lsp` produces a request naming
"main.rs" with wire position line 0, column 3 (and `point_to_lsp` maps
every point (r, c) to wire position (r, c), with no error case); and
`response_from_lsp` on the present server response passes the name and
expansion fields through unchanged. -/
theorem expandMacro_end_to_end_scenario :
    ExpandMacro.to_lsp ⟨⟨0, 3⟩⟩ mainRsPath ⟨1, [12]⟩ =
      Outcome.ok ⟨⟨⟨mainRsPath⟩⟩, ⟨0, 3⟩⟩ ∧
    ExpandMacro.response_from_lsp ⟨⟨0, 3⟩⟩ (some ⟨mainName, mainExpansion⟩) =
      Except.ok ⟨mainName, mainExpansion⟩ ∧
    ∀ p : PointUtf16, point_to_lsp p = ⟨p.row, p.column⟩ :=
  ⟨rfl, rfl, fun _ => rfl⟩

/-- Claim C6: for every command, `response_to_proto` followed by
`response_from_proto` is the identity on response values, and
`response_from_proto` never fails. -/
theorem response_proto_roundtrip
    (em : ExpandMacro) (rE : ExpandedMacro)
    (od : OpenDocs) (rO : DocsUrls)
    (sh : SwitchSourceHeader) (rS : SwitchSourceHeaderResult) :
    em.response_from_proto (ExpandMacro.response_to_proto rE) = Except.ok rE ∧
    od.response_from_proto (OpenDocs.response_to_proto rO) = Except.ok rO ∧
    sh.response_from_proto (SwitchSourceHeader.response_to_proto rS) =
      Except.ok rS :=
  ⟨rfl, rfl, rfl⟩

/-- Claim C7: the three commands' language-server wire method names
are pairwise distinct static strings. -/
theorem methods_pairwise_distinct :
    lspExpandMacroMethod ≠ lspOpenDocsMethod ∧
    lspExpandMacroMethod ≠ lspSwitchSourceHeaderMethod ∧
    lspOpenDocsMethod ≠ lspSwitchSourceHeaderMethod := by
  refine ⟨?_, ?_, ?_⟩ <;> decide

/-- Claim C8: the SwitchSourceHeader peer request message carries only
the addressing pair: the message produced by `to_proto` is exactly the
given project id together with the buffer's remote id (its message type
has no position field at all). -/
theorem switchSourceHeader_to_proto_only_addressing
    (sh : SwitchSourceHeader) (project_id : Nat) (buf : Buffer) :
    SwitchSourceHeader.to_proto sh project_id buf = ⟨project_id, buf.remoteId⟩ :=
  rfl

/-- Claim C9: for ExpandMacro and OpenDocs, the peer request message
produced by `to_proto` always has its position field set, carries the
given project id and the buffer's remote id, and is accepted by
`from_proto` on any receiving buffer — it can never trigger the
missing-position failure. -/
theorem to_proto_position_always_present
    (p : PointUtf16) (project_id : Nat) (buf recv : Buffer) :
    ((ExpandMacro.to_proto ⟨p⟩ project_id buf).position.isSome = true ∧
      (ExpandMacro.to_proto ⟨p⟩ project_id buf).project_id = project_id ∧
      (ExpandMacro.to_proto ⟨p⟩ project_id buf).buffer_id = buf.remoteId ∧
      exceptIsOk (ExpandMacro.from_proto
        (ExpandMacro.to_proto ⟨p⟩ project_id buf) recv) = true) ∧
    ((OpenDocs.to_proto ⟨p⟩ project_id buf).position.isSome = true ∧
      (OpenDocs.to_proto ⟨p⟩ project_id buf).project_id = project_id ∧
      (OpenDocs.to_proto ⟨p⟩ project_id buf).buffer_id = buf.remoteId ∧
      exceptIsOk (OpenDocs.from_proto
        (OpenDocs.to_proto ⟨p⟩ project_id buf) recv) = true) :=
  ⟨⟨rfl, rfl, rfl, rfl⟩, ⟨rfl, rfl, rfl, rfl⟩⟩

/-- Claim C10: `SwitchSourceHeader::from_proto` returns `ok` on every
input peer message and every buffer, ignoring the message's contents:
reconstruction of the zero-parameter command can never fail. -/
theorem switchSourceHeader_from_proto_total
    (msg : LspExtSwitchSourceHeaderMsg) (buf : Buffer) :
    SwitchSourceHeader.from_proto msg buf = Except.ok ⟨⟩ :=
  rfl
